import Mathlib

namespace YouthWellness

/-! Shallow embedding of the Safety and Pacing Core of `src/app.py`:
the crisis keyword detector (lines 87, 168-173), the helpline table
(lines 88-93), the chat send handler (lines 163-188) and the
breathing-exercise timer loop (lines 220-241). Strings are `List Char`;
wall-clock instants are exact rationals. -/

/-- The crisis keyword list, from `CRISIS_KEYWORDS` (app.py line 87). -/
def CRISIS_KEYWORDS : List (List Char) :=
  ["suicide".data, "kill myself".data, "want to die".data, "die".data,
   "hopeless".data, "worthless".data, "end my life".data]

/-- The helpline table, from `HELPLINES` (app.py lines 88-93). -/
def HELPLINES : List (List Char × List Char) :=
  [("India (NIMHANS)".data, "080-4611-0007".data),
   ("iCall India".data, "+91 9152987821".data),
   ("US (988)".data, "988".data),
   ("International (if available)".data,
    "Contact local emergency services / national lifeline".data)]

/-- Python `message.lower()` restricted to ASCII case folding; the spec notes
ASCII folding is sufficient since the keyword set is ASCII. -/
def lowerStr (s : List Char) : List Char := s.map Char.toLower

/-- The codepoints Python `str.strip` and `str.isspace` treat as whitespace. -/
def isPySpace (c : Char) : Bool :=
  decide (c.toNat ∈ ([9, 10, 11, 12, 13, 28, 29, 30, 31, 32, 133, 160, 5760,
    8192, 8193, 8194, 8195, 8196, 8197, 8198, 8199, 8200, 8201, 8202,
    8232, 8233, 8239, 8287, 12288] : List Nat))

/-- Python `s.strip()`: drop leading and trailing whitespace. -/
def pyStrip (s : List Char) : List Char :=
  ((s.dropWhile isPySpace).reverse.dropWhile isPySpace).reverse

/-- Crisis detection from app.py lines 168-169:
`low = user_input.lower()` then `any(k in low for k in CRISIS_KEYWORDS)`,
where Python `k in low` is contiguous-substring containment. -/
def checkFlagged (m : List Char) : Bool :=
  CRISIS_KEYWORDS.any fun k => decide (k <:+: lowerStr m)

/-- Modelled from the spec: the source computes only the short-circuited
boolean `any(k in low for k in CRISIS_KEYWORDS)` and never materialises a
matched-term list; the spec's `CrisisCheckResult.matchedTerms` ("lists every
keyword that matched, in the keyword set's original order") is the keyword
list filtered by the same substring test the source applies. -/
def matchedTerms (m : List Char) : List (List Char) :=
  CRISIS_KEYWORDS.filter fun k => decide (k <:+: lowerStr m)

inductive Speaker where
  | you
  | ai
deriving DecidableEq

inductive Display where
  | error (msg : List Char)
  | write (msg : List Char)
  | warning (msg : List Char)
deriving DecidableEq

/-- The crisis banner and helpline lines rendered on a flagged message
(app.py lines 170-173): `st.error(...)`, one `st.write` per helpline entry
formatting the label and the number, then the closing `st.write(...)`. -/
def crisisDisplay : List Display :=
  Display.error "⚠ It looks like you may be in crisis or feeling unsafe. Please reach out to a helpline or trusted person immediately.".data
    :: (HELPLINES.map fun p => Display.write (p.1 ++ "** — ".data ++ p.2))
    ++ [Display.write "If you are in immediate danger, contact emergency services in your country.".data]

/-- Reply extraction from app.py lines 178-185: the generated text minus the
prompt, stripped; falling back to the full generation when that is empty. -/
def reply (genText : List Char → List Char) (input : List Char) : List Char :=
  let gen := genText input
  let r := pyStrip (gen.drop input.length)
  if r = [] then gen else r

/-- One press of the Send button (app.py lines 163-188), as a function from
the generation model, the current chat history and the input text to the
displayed safety content and the updated chat history. -/
def sendStep (genText : List Char → List Char)
    (history : List (Speaker × List Char)) (input : List Char) :
    List Display × List (Speaker × List Char) :=
  if pyStrip input = [] then
    ([Display.warning "Please type something before sending.".data], history)
  else
    ((if checkFlagged input then crisisDisplay else []),
     history ++ [(Speaker.you, input), (Speaker.ai, reply genText input)])

/-- Python float `x % m` for positive `m`: `x - m * floor (x / m)`. -/
def pyMod (x m : ℚ) : ℚ := x - m * ⌊x / m⌋

/-- Python `int(x)` on a float: truncation toward zero. -/
def truncQ (x : ℚ) : ℤ := if 0 ≤ x then ⌊x⌋ else ⌈x⌉

inductive Phase where
  | inhale
  | hold1
  | exhale
  | hold2
deriving DecidableEq

/-- app.py line 230: `phase = int((elapsed % 16) // 4)`; float floor division
of the nonnegative float `elapsed % 16` is a floor. -/
def phaseIdx (elapsed : ℚ) : ℤ := ⌊pyMod elapsed 16 / 4⌋

/-- app.py lines 231-238: the if/elif/elif/else dispatch on `phase`. -/
def phaseOfIdx (i : ℤ) : Phase :=
  if i = 0 then Phase.inhale
  else if i = 1 then Phase.hold1
  else if i = 2 then Phase.exhale
  else Phase.hold2

/-- app.py lines 226-229 and 240: inside the loop (`elapsed < 60`) the bar
shows `int((elapsed / 60) * 100)`; once the loop exits it shows 100. -/
def progressShown (elapsed : ℚ) : ℤ :=
  if elapsed < 60 then truncQ (elapsed / 60 * 100) else 100

structure SampleResult where
  phase : Phase
  progressPercent : ℤ
  isComplete : Bool
deriving DecidableEq

/-- Sampling the breathing timer at instant `now` for a session started at
`startTimestamp` (app.py lines 220-241, with `elapsed = now - t0` and the
loop condition `elapsed < 60` as the completion test). -/
def sample (startTimestamp now : ℚ) : SampleResult :=
  let elapsed := now - startTimestamp
  ⟨phaseOfIdx (phaseIdx elapsed), progressShown elapsed, decide (60 ≤ elapsed)⟩

/-- The spec's progress formula: `floor (min (elapsed, 60) / 60 * 100)`. -/
def specProgress (elapsed : ℚ) : ℤ := ⌊min elapsed 60 / 60 * 100⌋

/-! Helper lemmas shared by the claim theorems. -/

theorem checkFlagged_eq_true_iff (m : List Char) :
    checkFlagged m = true ↔ ∃ k ∈ CRISIS_KEYWORDS, k <:+: lowerStr m := by
  simp [checkFlagged]

theorem mem_matchedTerms_iff (m k : List Char) :
    k ∈ matchedTerms m ↔ k ∈ CRISIS_KEYWORDS ∧ k <:+: lowerStr m := by
  simp [matchedTerms]

theorem toLower_of_isPySpace {c : Char} (h : isPySpace c = true) : c.toLower = c := by
  rw [isPySpace, decide_eq_true_eq] at h
  have hn : ¬(c.toNat ≥ 65 ∧ c.toNat ≤ 90) := by
    simp only [List.mem_cons, List.not_mem_nil, or_false] at h
    omega
  rw [Char.toLower, if_neg hn]

theorem checkFlagged_of_whitespace {m : List Char}
    (hm : ∀ c ∈ m, isPySpace c = true) : checkFlagged m = false := by
  rw [← Bool.not_eq_true, checkFlagged_eq_true_iff]
  rintro ⟨k, hk, hinf⟩
  have hkch : ∀ c ∈ k, isPySpace c = true := by
    intro c hc
    obtain ⟨d, hd, hdc⟩ := List.mem_map.mp (hinf.subset hc)
    have hds := hm d hd
    rw [← hdc, toLower_of_isPySpace hds]
    exact hds
  have hex : ∃ c ∈ k, isPySpace c = false := by
    fin_cases hk <;> decide
  obtain ⟨c, hc, hcf⟩ := hex
  rw [hkch c hc] at hcf
  cases hcf

theorem matchedTerms_of_whitespace {m : List Char}
    (hm : ∀ c ∈ m, isPySpace c = true) : matchedTerms m = [] := by
  have hflag := checkFlagged_of_whitespace hm
  rw [checkFlagged, Bool.eq_false_iff, ne_eq, List.any_eq_true] at hflag
  rw [matchedTerms, List.filter_eq_nil_iff]
  intro k hk hkinf
  exact hflag ⟨k, hk, hkinf⟩

theorem pyMod_nonneg (x m : ℚ) (hm : 0 < m) : 0 ≤ pyMod x m := by
  have h1 : ((⌊x / m⌋ : ℚ)) ≤ x / m := Int.floor_le _
  have h2 : m * ((⌊x / m⌋ : ℚ)) ≤ m * (x / m) := mul_le_mul_of_nonneg_left h1 hm.le
  have h3 : m * (x / m) = x := by
    rw [mul_comm]
    exact div_mul_cancel₀ x hm.ne'
  rw [pyMod]
  linarith

theorem pyMod_lt (x m : ℚ) (hm : 0 < m) : pyMod x m < m := by
  have h1 : x / m < (⌊x / m⌋ : ℚ) + 1 := Int.lt_floor_add_one _
  have h2 : m * (x / m) < m * (((⌊x / m⌋ : ℚ)) + 1) := by
    exact mul_lt_mul_of_pos_left h1 hm
  have h3 : m * (x / m) = x := by
    rw [mul_comm]
    exact div_mul_cancel₀ x hm.ne'
  rw [mul_add, mul_one] at h2
  rw [pyMod]
  linarith

theorem phaseIdx_nonneg (e : ℚ) : 0 ≤ phaseIdx e := by
  rw [phaseIdx]
  exact Int.floor_nonneg.mpr (div_nonneg (pyMod_nonneg e 16 (by norm_num)) (by norm_num))

theorem phaseIdx_lt_four (e : ℚ) : phaseIdx e < 4 := by
  rw [phaseIdx]
  rw [Int.floor_lt]
  rw [div_lt_iff₀ (by norm_num : (0:ℚ) < 4)]
  have := pyMod_lt e 16 (by norm_num)
  push_cast
  linarith

theorem truncQ_of_nonneg {x : ℚ} (hx : 0 ≤ x) : truncQ x = ⌊x⌋ := if_pos hx

theorem truncQ_nonpos {x : ℚ} (hx : x ≤ 0) : truncQ x ≤ 0 := by
  rw [truncQ]
  split
  · have hx0 : x = 0 := le_antisymm hx (by assumption)
    simp [hx0]
  · have : x ≤ ((0 : ℤ) : ℚ) := by exact_mod_cast hx
    exact Int.ceil_le.mpr this

theorem truncQ_mono {x y : ℚ} (h : x ≤ y) : truncQ x ≤ truncQ y := by
  by_cases hx : 0 ≤ x
  · have hy : 0 ≤ y := hx.trans h
    rw [truncQ_of_nonneg hx, truncQ_of_nonneg hy]
    exact Int.floor_le_floor h
  · by_cases hy : 0 ≤ y
    · have h1 : truncQ x ≤ 0 := truncQ_nonpos (le_of_not_le hx)
      have h2 : (0 : ℤ) ≤ ⌊y⌋ := Int.floor_nonneg.mpr hy
      rw [truncQ_of_nonneg hy]
      exact h1.trans h2
    · rw [truncQ, if_neg hx, truncQ, if_neg hy]
      exact Int.ceil_le_ceil h

theorem progressShown_eq_spec {e : ℚ} (he : 0 ≤ e) : progressShown e = specProgress e := by
  rw [progressShown, specProgress]
  split
  · have hmin : min e 60 = e := min_eq_left (by linarith)
    rw [hmin, truncQ_of_nonneg (by positivity)]
  · have hmin : min e 60 = 60 := min_eq_right (by linarith)
    rw [hmin]
    norm_num

theorem progressShown_le_100 (e : ℚ) : progressShown e ≤ 100 := by
  rw [progressShown]
  split
  · rename_i h
    by_cases h0 : 0 ≤ e
    · rw [truncQ_of_nonneg (by positivity)]
      have harg : e / 60 * 100 < ((100 : ℤ) : ℚ) := by
        push_cast
        nlinarith
      exact (Int.floor_lt.mpr harg).le
    · have : e / 60 * 100 ≤ 0 := by nlinarith [le_of_not_le h0]
      have := truncQ_nonpos this
      linarith
  · exact le_refl _

theorem progressShown_nonneg {e : ℚ} (he : 0 ≤ e) : 0 ≤ progressShown e := by
  rw [progressShown]
  split
  · rw [truncQ_of_nonneg (by positivity)]
    exact Int.floor_nonneg.mpr (by positivity)
  · norm_num

/-! The claim theorems. -/

/-- C1: for every message string, the crisis detector flags it iff at least one
keyword of the fixed list occurs as a contiguous substring of the lower-cased
message; in particular a message containing no keyword is never flagged. -/
theorem C1_flagged_iff_keyword_substring (m : List Char) :
    checkFlagged m = true ↔
      ∃ k ∈ ["suicide".data, "kill myself".data, "want to die".data, "die".data,
             "hopeless".data, "worthless".data, "end my life".data],
        k <:+: lowerStr m := by
  rw [checkFlagged_eq_true_iff]
  rfl

/-- C2: `matchedTerms` lists exactly the keywords occurring (case-insensitively)
as substrings of the message, in the keyword set's original order (it is a
sublist of the keyword list); `check("I want to die")` matches both `die` and
`want to die`; a keyword embedded in any surrounding case is flagged with that
keyword matched (e.g. "I feel HOPELESS today" flags on "hopeless"). -/
theorem C2_matchedTerms_complete :
    (∀ m : List Char, List.Sublist (matchedTerms m) CRISIS_KEYWORDS) ∧
    (∀ m k : List Char, k ∈ CRISIS_KEYWORDS → k <:+: lowerStr m → k ∈ matchedTerms m) ∧
    (∀ m : List Char, checkFlagged m = true ↔ matchedTerms m ≠ []) ∧
    "die".data ∈ matchedTerms "I want to die".data ∧
    "want to die".data ∈ matchedTerms "I want to die".data ∧
    checkFlagged "I feel HOPELESS today".data = true ∧
    "hopeless".data ∈ matchedTerms "I feel HOPELESS today".data := by
  refine ⟨fun m => List.filter_sublist _,
    fun m k hk hinf => (mem_matchedTerms_iff m k).mpr ⟨hk, hinf⟩,
    fun m => ?_, by decide, by decide, by decide, by decide⟩
  rw [checkFlagged_eq_true_iff]
  constructor
  · rintro ⟨k, hk, hinf⟩ hnil
    rw [matchedTerms, List.filter_eq_nil_iff] at hnil
    exact hnil k hk (by simpa using hinf)
  · intro hne
    obtain ⟨k, hk⟩ := List.exists_mem_of_ne_nil _ hne
    obtain ⟨hmem, hinf⟩ := (mem_matchedTerms_iff m k).mp hk
    exact ⟨k, hmem, hinf⟩

/-- C2 witness: the completeness direction applied to the keyword "die" inside
the concrete message "I want to die". -/
theorem C2_witness :
    "die".data ∈ CRISIS_KEYWORDS ∧ "die".data <:+: lowerStr "I want to die".data ∧
    "die".data ∈ matchedTerms "I want to die".data :=
  ⟨by decide, by decide, C2_matchedTerms_complete.2.1 "I want to die".data "die".data
    (by decide) (by decide)⟩

/-- C3: the displayed phase is `phaseOfIdx (floor ((elapsed mod 16) / 4))` with
the mapping 0 to Inhale, 1 to Hold1, 2 to Exhale, 3 to Hold2; concretely the
phase is Inhale at 0 s, Hold1 at 4 s, Exhale at 8 s, Hold2 at 12 s, and wraps
back to Inhale at 16 s. -/
theorem C3_phase_formula :
    (∀ startTimestamp now : ℚ,
      (sample startTimestamp now).phase =
        phaseOfIdx ⌊pyMod (now - startTimestamp) 16 / 4⌋) ∧
    (sample 0 0).phase = Phase.inhale ∧
    (sample 0 4).phase = Phase.hold1 ∧
    (sample 0 8).phase = Phase.exhale ∧
    (sample 0 12).phase = Phase.hold2 ∧
    (sample 0 16).phase = Phase.inhale := by
  refine ⟨fun s n => rfl, ?_, ?_, ?_, ?_, ?_⟩ <;>
    norm_num [sample, phaseIdx, pyMod, phaseOfIdx]

/-- C4: for nonnegative elapsed time the reported progress equals
`floor (min (elapsed, 60) / 60 * 100)`; once elapsed reaches 60 s the sample is
complete with progress 100, and remains so at any later instant such as 120 s. -/
theorem C4_progress_formula :
    (∀ startTimestamp now : ℚ, 0 ≤ now - startTimestamp →
      (sample startTimestamp now).progressPercent =
        ⌊min (now - startTimestamp) 60 / 60 * 100⌋) ∧
    (∀ startTimestamp now : ℚ, 60 ≤ now - startTimestamp →
      (sample startTimestamp now).isComplete = true ∧
      (sample startTimestamp now).progressPercent = 100) ∧
    (sample 0 60).isComplete = true ∧ (sample 0 60).progressPercent = 100 ∧
    (sample 0 120).isComplete = true ∧ (sample 0 120).progressPercent = 100 := by
  refine ⟨fun s n h => progressShown_eq_spec h, fun s n h => ⟨decide_eq_true h, ?_⟩,
    by norm_num [sample], by norm_num [sample, progressShown],
    by norm_num [sample], by norm_num [sample, progressShown]⟩
  show progressShown (n - s) = 100
  rw [progressShown, if_neg (not_lt.mpr h)]

/-- C4 witness: the formula at elapsed 10 s and the terminal state at 120 s. -/
theorem C4_witness :
    (0:ℚ) ≤ 10 - 0 ∧
    (sample 0 10).progressPercent = ⌊min ((10:ℚ) - 0) 60 / 60 * 100⌋ ∧
    (60:ℚ) ≤ 120 - 0 ∧ (sample 0 120).isComplete = true :=
  ⟨by norm_num, C4_progress_formula.1 0 10 (by norm_num), by norm_num,
    (C4_progress_formula.2.1 0 120 (by norm_num)).1⟩

/-- C5: progress is monotone over samples of one session: if both instants fall
before start + 60 s and the second is later, its progress is at least the
first's. -/
theorem C5_progress_monotone (startTimestamp now1 now2 : ℚ)
    (h12 : now1 < now2) (h1 : now1 < startTimestamp + 60)
    (h2 : now2 < startTimestamp + 60) :
    (sample startTimestamp now1).progressPercent ≤
      (sample startTimestamp now2).progressPercent := by
  show progressShown (now1 - startTimestamp) ≤ progressShown (now2 - startTimestamp)
  rw [progressShown, progressShown, if_pos (by linarith), if_pos (by linarith)]
  apply truncQ_mono
  linarith

/-- C5 witness: monotonicity at the concrete instants 10 s and 20 s. -/
theorem C5_witness :
    (10:ℚ) < 20 ∧ (10:ℚ) < 0 + 60 ∧ (20:ℚ) < 0 + 60 ∧
    (sample 0 10).progressPercent ≤ (sample 0 20).progressPercent :=
  ⟨by norm_num, by norm_num, by norm_num,
    C5_progress_monotone 0 10 20 (by norm_num) (by norm_num) (by norm_num)⟩

/-- C6 counterexample: at start 0 sampled at instant -1 (elapsed -1 s) the code
does not clamp: the phase is Hold2 (Python float mod maps -1 into [0,16) as 15)
and the progress is -1 (Python `int` truncation of -5/3), not Inhale and 0 as
the claim states. -/
theorem C6_counterexample :
    ((-1:ℚ)) - 0 < 0 ∧
    (sample 0 (-1)).phase = Phase.hold2 ∧
    ¬((sample 0 (-1)).phase = Phase.inhale) ∧
    (sample 0 (-1)).progressPercent = -1 ∧
    ¬((sample 0 (-1)).progressPercent = 0) := by
  have hp : (sample 0 (-1)).phase = Phase.hold2 := by
    norm_num [sample, phaseIdx, pyMod, phaseOfIdx]
  have hq : (sample 0 (-1)).progressPercent = -1 := by
    norm_num [sample, progressShown, truncQ, Int.ceil_eq_iff]
  refine ⟨by norm_num, hp, ?_, hq, ?_⟩
  · rw [hp]
    decide
  · rw [hq]
    decide

/-- C6 amended: when `now < startTimestamp` the code does not clamp elapsed time
to 0; the session is simply not complete, the reported progress is at most 0
(negative once elapsed is at most -0.6 s, by truncation toward zero), and the
phase is still a well-defined one of the four (Python's floored mod keeps the
phase index in [0,4)), with elapsed in [-4,0) shown as Hold2 rather than
Inhale. -/
theorem C6_amended_no_clamp (startTimestamp now : ℚ) (h : now < startTimestamp) :
    (sample startTimestamp now).isComplete = false ∧
    (sample startTimestamp now).progressPercent ≤ 0 ∧
    0 ≤ phaseIdx (now - startTimestamp) ∧ phaseIdx (now - startTimestamp) < 4 ∧
    (-4 ≤ now - startTimestamp →
      (sample startTimestamp now).phase = Phase.hold2) := by
  refine ⟨decide_eq_false (by intro hc; linarith), ?_, phaseIdx_nonneg _,
    phaseIdx_lt_four _, fun h4 => ?_⟩
  · show progressShown (now - startTimestamp) ≤ 0
    rw [progressShown, if_pos (by linarith)]
    exact truncQ_nonpos (by linarith)
  · show phaseOfIdx (phaseIdx (now - startTimestamp)) = Phase.hold2
    have hfloor : ⌊(now - startTimestamp) / 16⌋ = -1 := by
      rw [Int.floor_eq_iff]
      constructor
      · push_cast
        linarith
      · push_cast
        linarith
    have hmod : pyMod (now - startTimestamp) 16 = now - startTimestamp + 16 := by
      rw [pyMod, hfloor]
      push_cast
      ring
    have hidx : phaseIdx (now - startTimestamp) = 3 := by
      rw [phaseIdx, hmod, Int.floor_eq_iff]
      constructor
      · push_cast
        linarith
      · push_cast
        linarith
    rw [hidx]
    decide

/-- C6 amended witness: the non-clamping behaviour at start 0 and instant -1. -/
theorem C6_amended_witness :
    ((-1:ℚ)) < 0 ∧ (sample 0 (-1)).isComplete = false ∧
    (-4:ℚ) ≤ -1 - 0 ∧ (sample 0 (-1)).phase = Phase.hold2 :=
  ⟨by norm_num, (C6_amended_no_clamp 0 (-1) (by norm_num)).1, by norm_num,
    (C6_amended_no_clamp 0 (-1) (by norm_num)).2.2.2.2 (by norm_num)⟩

/-- C7: the detector on the empty string yields flagged false with no matched
terms, and every whitespace-only input is likewise unflagged. -/
theorem C7_empty_whitespace :
    checkFlagged "".data = false ∧ matchedTerms "".data = [] ∧
    (∀ m : List Char, (∀ c ∈ m, isPySpace c = true) →
      checkFlagged m = false ∧ matchedTerms m = []) :=
  ⟨by decide, by decide,
    fun _ hm => ⟨checkFlagged_of_whitespace hm, matchedTerms_of_whitespace hm⟩⟩

/-- C7 witness: the whitespace-only input of one space and one tab. -/
theorem C7_witness :
    (∀ c ∈ " \t".data, isPySpace c = true) ∧ checkFlagged " \t".data = false :=
  ⟨by decide, (C7_empty_whitespace.2.2 " \t".data (by decide)).1⟩

/-- C8: both components are total in the embedding: the detector yields a
boolean on every string, and on every sample instant (any rational, even an
invalid one before the start) the phase index stays inside [0,4) and the
progress never exceeds 100; on valid instants it is also nonnegative. -/
theorem C8_totality :
    (∀ m : List Char, checkFlagged m = true ∨ checkFlagged m = false) ∧
    (∀ startTimestamp now : ℚ,
      0 ≤ phaseIdx (now - startTimestamp) ∧ phaseIdx (now - startTimestamp) < 4 ∧
      (sample startTimestamp now).progressPercent ≤ 100) ∧
    (∀ startTimestamp now : ℚ, startTimestamp ≤ now →
      0 ≤ (sample startTimestamp now).progressPercent) :=
  ⟨fun m => Bool.eq_false_or_eq_true (checkFlagged m),
    fun _ _ => ⟨phaseIdx_nonneg _, phaseIdx_lt_four _, progressShown_le_100 _⟩,
    fun _ _ h => progressShown_nonneg (by linarith)⟩

/-- C8 witness: nonnegative progress at the valid instant 0 of a session started
at 0. -/
theorem C8_witness : (0:ℚ) ≤ 0 ∧ 0 ≤ (sample 0 0).progressPercent :=
  ⟨le_refl 0, C8_totality.2.2 0 0 (le_refl 0)⟩

/-- C9: the helpline table is exactly the four label-contact entries, and a
flagged nonempty message renders the fixed safety banner, one line per helpline
entry (label with its contact string) in order, and the closing safety note. -/
theorem C9_helplines :
    HELPLINES = [("India (NIMHANS)".data, "080-4611-0007".data),
      ("iCall India".data, "+91 9152987821".data),
      ("US (988)".data, "988".data),
      ("International (if available)".data,
       "Contact local emergency services / national lifeline".data)] ∧
    crisisDisplay = [Display.error "⚠ It looks like you may be in crisis or feeling unsafe. Please reach out to a helpline or trusted person immediately.".data,
      Display.write "India (NIMHANS)** — 080-4611-0007".data,
      Display.write "iCall India** — +91 9152987821".data,
      Display.write "US (988)** — 988".data,
      Display.write "International (if available)** — Contact local emergency services / national lifeline".data,
      Display.write "If you are in immediate danger, contact emergency services in your country.".data] ∧
    (∀ (genText : List Char → List Char) (history : List (Speaker × List Char))
      (input : List Char), pyStrip input ≠ [] → checkFlagged input = true →
      (sendStep genText history input).1 = crisisDisplay) := by
  refine ⟨rfl, by decide, fun g h i hne hflag => ?_⟩
  rw [sendStep, if_neg hne]
  show (if checkFlagged i then crisisDisplay else []) = crisisDisplay
  rw [hflag]
  rfl

/-- C9 witness: rendering for the concrete flagged message "I feel hopeless". -/
theorem C9_witness :
    pyStrip "I feel hopeless".data ≠ [] ∧ checkFlagged "I feel hopeless".data = true ∧
    (sendStep (fun s => s) [] "I feel hopeless".data).1 = crisisDisplay :=
  ⟨by decide, by decide,
    C9_helplines.2.2 (fun s => s) [] "I feel hopeless".data (by decide) (by decide)⟩

/-- C10: crisis flagging has no effect on the chat pipeline's state: for every
message that is nonempty after stripping, the history is extended with the user
message and the generated reply by one fixed formula independent of the flag,
and the displayed safety content is exactly the crisis block when flagged and
nothing otherwise. -/
theorem C10_flagging_frame (genText : List Char → List Char)
    (history : List (Speaker × List Char)) (input : List Char)
    (hne : pyStrip input ≠ []) :
    (sendStep genText history input).2 =
      history ++ [(Speaker.you, input), (Speaker.ai, reply genText input)] ∧
    (sendStep genText history input).1 =
      (if checkFlagged input then crisisDisplay else []) := by
  rw [sendStep, if_neg hne]
  exact ⟨rfl, rfl⟩

/-- C10 witness: the frame property at the concrete unflagged message "hello"
with the identity generator and empty history. -/
theorem C10_witness :
    pyStrip "hello".data ≠ [] ∧
    (sendStep (fun s => s) [] "hello".data).2 =
      [] ++ [(Speaker.you, "hello".data), (Speaker.ai, reply (fun s => s) "hello".data)] :=
  ⟨by decide, (C10_flagging_frame (fun s => s) [] "hello".data (by decide)).1⟩

end YouthWellness
